import Mathlib

/-!
Linux platform layer of the engine (`src/sys/linux/engine.cc`).

A shallow embedding of `TranslateKey` and of the `EngineImpl` methods
`Init`, `Destroy`, `InitWindow`, `DestroyWindow`, `UpdateWindow` and `Run`.

* Handles (`Display*`, `Window`, `GLXContext`, `Colormap`, `Atom`) are natural
  numbers, `0` standing for `NULL` / `None`.
* Every call that leaves the translation unit (Xlib, GLX, XF86VidMode, GLEW and
  the collaborators `world`, `renderer`, `cache`, `threadMngr`, `engine`) is
  appended to the `trace` field of the state, in program order.
* What the X server answers is read from an explicit environment `X11Env`;
  the events found in the queue are explicit arguments.
* C `int` arithmetic is `Int` arithmetic followed by `wrapInt32`.
* The pointer `modes` is the list of captured mode lines, the empty list
  standing for the null pointer it is before `InitWindow` has captured them.
-/

namespace Rpg

/-! ## Key symbols and key codes -/

/-- An X11 `KeySym` (an unsigned long). -/
abbrev KeySym := Nat

/-- Value of `XK_Escape` in `X11/keysymdef.h`. -/
def XK_Escape : KeySym := 0xff1b
/-- Value of `XK_Shift_L` in `X11/keysymdef.h`. -/
def XK_Shift_L : KeySym := 0xffe1
/-- Value of `XK_Shift_R` in `X11/keysymdef.h`. -/
def XK_Shift_R : KeySym := 0xffe2
/-- Value of `XK_Control_L` in `X11/keysymdef.h`. -/
def XK_Control_L : KeySym := 0xffe3
/-- Value of `XK_Control_R` in `X11/keysymdef.h`. -/
def XK_Control_R : KeySym := 0xffe4
/-- Value of `XK_space` in `X11/keysymdef.h`. -/
def XK_space : KeySym := 0x0020
/-- Value of `XK_Return` in `X11/keysymdef.h`. -/
def XK_Return : KeySym := 0xff0d
/-- Value of `XK_a` in `X11/keysymdef.h`. -/
def XK_a : KeySym := 0x0061
/-- Value of `XK_w` in `X11/keysymdef.h`. -/
def XK_w : KeySym := 0x0077
/-- Value of `XK_s` in `X11/keysymdef.h`. -/
def XK_s : KeySym := 0x0073
/-- Value of `XK_d` in `X11/keysymdef.h`. -/
def XK_d : KeySym := 0x0064

/-- The engine key codes that `TranslateKey` can return (the enumerators of
`KeyButton` named in `engine.cc`). -/
inductive KeyButton
  | KEY_UNDEF
  | KEY_ESC
  | KEY_SHIFT
  | KEY_CTRL
  | KEY_SPACE
  | KEY_ENTER
  | KEY_A
  | KEY_W
  | KEY_S
  | KEY_D
  deriving DecidableEq, Repr

/-- The function `TranslateKey` of `engine.cc` (lines 13-30): a `switch` over
the key symbol with a `default` label. -/
def TranslateKey (sym : KeySym) : KeyButton :=
  if sym = XK_Escape then KeyButton.KEY_ESC
  else if sym = XK_Shift_L then KeyButton.KEY_SHIFT
  else if sym = XK_Shift_R then KeyButton.KEY_SHIFT
  else if sym = XK_Control_L then KeyButton.KEY_CTRL
  else if sym = XK_Control_R then KeyButton.KEY_CTRL
  else if sym = XK_space then KeyButton.KEY_SPACE
  else if sym = XK_Return then KeyButton.KEY_ENTER
  else if sym = XK_a then KeyButton.KEY_A
  else if sym = XK_w then KeyButton.KEY_W
  else if sym = XK_s then KeyButton.KEY_S
  else if sym = XK_d then KeyButton.KEY_D
  else KeyButton.KEY_UNDEF

/-- The eleven key symbols that have a `case` label in `TranslateKey`. -/
def mappedKeySyms : List KeySym :=
  [XK_Escape, XK_Shift_L, XK_Shift_R, XK_Control_L, XK_Control_R, XK_space,
   XK_Return, XK_a, XK_w, XK_s, XK_d]

/-! ## Machine integers -/

/-- Reduction of an integer to the range of a 32-bit C `int`
(two's complement): the value of a conversion to `int`. -/
def wrapInt32 (n : Int) : Int :=
  if n % 4294967296 < 2147483648 then n % 4294967296 else n % 4294967296 - 4294967296

/-- Conversion of an `int` argument to an `unsigned int` parameter. -/
def toUInt32 (n : Int) : Int := n % 4294967296

/-- The values of a 32-bit C `int`. -/
def InInt32 (n : Int) : Prop := -2147483648 ≤ n ∧ n < 2147483648

instance (n : Int) : Decidable (InInt32 n) := by unfold InInt32; infer_instance

/-! ## X11 event types (`X11/X.h`) -/

/-- Value of `KeyPress` in `X11/X.h`. -/
def KeyPress : Int := 2
/-- Value of `KeyRelease` in `X11/X.h`. -/
def KeyRelease : Int := 3
/-- Value of `MapNotify` in `X11/X.h`. -/
def MapNotify : Int := 19
/-- Value of `ConfigureNotify` in `X11/X.h`. -/
def ConfigureNotify : Int := 22
/-- Value of `ResizeRequest` in `X11/X.h`. -/
def ResizeRequest : Int := 25
/-- Value of `ClientMessage` in `X11/X.h`. -/
def ClientMessage : Int := 33

/-- The parts of an `XEvent` that `Run` reads: the event type, the first data
word of a client message (`xclient.data.l[0]`, a `long`) and the key symbol
that `XLookupKeysym(&xevt.xkey, 0)` yields for the event. -/
structure XEvent where
  type : Int
  data_l0 : Int
  keysym : KeySym
  deriving DecidableEq, Repr

/-- The tag of an `InputEvent`; `engine.cc` builds keyboard events only. -/
inductive EventType
  | EVT_KEYBOARD
  deriving DecidableEq, Repr

/-- The fields of an `InputEvent` that `Run` writes: `type`,
`keyboard.state` and `keyboard.key`. -/
structure InputEvent where
  type : EventType
  state : Bool
  key : KeyButton
  deriving DecidableEq, Repr

/-! ## Calls leaving the translation unit -/

/-- One call issued by `engine.cc` to Xlib, GLX, XF86VidMode, GLEW or to a
collaborator object, with the arguments that matter. -/
inductive Call
  | XOpenDisplay
  | glXQueryVersion (dpy : Nat)
  | glXChooseVisual (dpy : Nat)
  | XCreateColormap (dpy root : Nat)
  | XFree (p : Nat)
  | XCreateWindow (dpy root : Nat) (width height : Int)
  | XStoreName (dpy wnd : Nat) (title : String)
  | XInternAtom (dpy : Nat) (name : String)
  | XSetWMProtocols (dpy wnd atom : Nat)
  | XMapWindow (dpy wnd : Nat)
  | XSync (dpy : Nat)
  | XPending (dpy : Nat)
  | XNextEvent (dpy : Nat)
  | XF86VidModeGetAllModeLines (dpy : Nat)
  | glXCreateContext (dpy vi : Nat)
  | glXMakeCurrent (dpy wnd ctx : Nat)
  | glewInit
  | glXDestroyContext (dpy ctx : Nat)
  | XF86VidModeSwitchToMode (dpy mode : Nat)
  | XF86VidModeSetViewPort (dpy : Nat) (x y : Int)
  | XDestroyWindow (dpy wnd : Nat)
  | XFreeColormap (dpy cmap : Nat)
  | XCloseDisplay (dpy : Nat)
  | XGetWindowAttributes (dpy root : Nat)
  | XMoveResizeWindow (dpy wnd : Nat) (x y width height : Int)
  | XChangeWindowAttributes (dpy wnd : Nat)
  | glXSwapBuffers (dpy wnd : Nat)
  | rendererFrame
  | worldPostEvent (e : InputEvent)
  | engineQuit
  | threadMngrStart
  | threadMngrStop
  | XLookupKeysym
  | worldInit (script : String)
  | rendererInit
  | cacheInit
  | threadMngrInit
  | threadMngrSpawnWorld
  | threadMngrSpawnNetwork
  | threadMngrDestroy
  | rendererDestroy
  | cacheDestroy
  | worldDestroy
  deriving DecidableEq, Repr

/-! ## The engine object and its environment -/

/-- The geometry fields of an `XWindowAttributes`. -/
structure XWindowAttributes where
  x : Int
  y : Int
  width : Int
  height : Int
  deriving DecidableEq, Repr

/-- The members of `EngineImpl` (lines 51-58), the `running` flag it inherits
from `Engine`, the configuration variables it reads and writes (`wndType`,
`wndWidth`, `wndHeight`, `wndTitle`, `wndReload`, `Renderer::vpWidth`,
`Renderer::vpHeight`, `Renderer::vpReload`, each held by its current
`GetInt` / `GetBool` / `GetString` value), and the calls issued so far.
`modes` is the null pointer (the empty list) until line 171 has written it. -/
structure EngineImpl where
  dpy : Nat
  wnd : Nat
  wndClose : Nat
  context : Nat
  colormap : Nat
  modes : List Nat
  modeCount : Int
  running : Bool
  wndType : Int
  wndWidth : Int
  wndHeight : Int
  wndTitle : String
  wndReload : Bool
  vpWidth : Int
  vpHeight : Int
  vpReload : Bool
  trace : List Call
  deriving DecidableEq, Repr

/-- The constructor `EngineImpl::EngineImpl` (lines 66-73) zeroes the five
handles; the configuration values are those in force at start-up. -/
def EngineImpl.new (wndType wndWidth wndHeight : Int) (wndTitle : String)
    (wndReload : Bool) : EngineImpl :=
  { dpy := 0, wnd := 0, wndClose := 0, context := 0, colormap := 0,
    modes := [], modeCount := 0, running := false,
    wndType := wndType, wndWidth := wndWidth, wndHeight := wndHeight,
    wndTitle := wndTitle, wndReload := wndReload,
    vpWidth := 0, vpHeight := 0, vpReload := false, trace := [] }

/-- Appends one call to the trace. -/
def EngineImpl.emit (s : EngineImpl) (c : Call) : EngineImpl :=
  { s with trace := s.trace ++ [c] }

/-- What the X server and the GL libraries answer to the calls of
`InitWindow` and `UpdateWindow`. -/
structure X11Env where
  -- Result of `XOpenDisplay(0)`.
  display : Nat
  -- Value of `DefaultRootWindow(dpy)`.
  root : Nat
  -- Return value of `glXQueryVersion`.
  glxQueryOk : Bool
  -- Major version written by `glXQueryVersion`.
  glxMajor : Int
  -- Minor version written by `glXQueryVersion`.
  glxMinor : Int
  -- Result of `glXChooseVisual` (a pointer).
  visual : Nat
  -- Result of `XCreateColormap`.
  newColormap : Nat
  -- Result of `XCreateWindow`.
  newWindow : Nat
  -- Result of `XInternAtom(dpy, "WM_DELETE_WINDOW", False)`.
  closeAtom : Nat
  -- Types of the events that `XNextEvent` delivers after `XMapWindow`.
  mapEvents : List Int
  -- Return value of `XF86VidModeGetAllModeLines`.
  modeLinesOk : Bool
  -- Mode count written by `XF86VidModeGetAllModeLines`.
  modeCount : Int
  -- First mode line written by `XF86VidModeGetAllModeLines` (a successful
  -- query reports at least the mode in use; the catalog has an index 0).
  modeLine0 : Nat
  -- Further mode lines written by `XF86VidModeGetAllModeLines`.
  modeLinesRest : List Nat
  -- Result of `glXCreateContext`.
  newContext : Nat
  -- Whether `glewInit()` returns `GLEW_OK`.
  glewOk : Bool
  -- Geometry of the root window as `XGetWindowAttributes` reports it.
  rootAttr : XWindowAttributes
  deriving Repr

/-! ## `InitWindow` -/

/-- The errors that `InitWindow` signals, one per `EXCEPT` statement. -/
inductive InitError
  | cannotOpenDisplay
  | invalidGLXVersion (maj min : Int)
  | cannotChooseVisual
  | cannotCreateColormap
  | cannotCreateXWindow
  | cannotRetrieveModes
  | cannotCreateContext
  | cannotInitGLEW
  deriving DecidableEq, Repr

/-- The text streamed into `EXCEPT` for each error. -/
def InitError.what : InitError → String
  | .cannotOpenDisplay => "Cannot open display"
  | .invalidGLXVersion maj min =>
      "Invalid GLX version (" ++ toString maj ++ "." ++ toString min ++ " < 1.3)"
  | .cannotChooseVisual => "Cannot choose visual"
  | .cannotCreateColormap => "Cannot create colormap"
  | .cannotCreateXWindow => "Cannot create X window"
  | .cannotRetrieveModes => "Cannot retrieve fullscreen modes"
  | .cannotCreateContext => "Cannot create OpenGL context"
  | .cannotInitGLEW => "Cannot initialise GLEW"

/-- Modelled from the spec: the macro `EXCEPT` is declared in `sys/common.h`,
which is not among the sources; the spec describes every failed creation step
as signalling a fatal error that is caught only at the process boundary, so
`EXCEPT << msg` leaves the function at once with the state as it then is. -/
inductive Outcome
  | returned (s : EngineImpl)
  | threw (s : EngineImpl) (e : InitError)
  deriving DecidableEq, Repr

/-- The engine object an outcome leaves behind. -/
def Outcome.state : Outcome → EngineImpl
  | .returned s => s
  | .threw s _ => s

/-- The condition of the GLX version check (line 111):
`!glXQueryVersion(dpy, &maj, &min) || (maj == 1 && min < 3) || maj < 1`. -/
def glxVersionInvalid (queryOk : Bool) (maj min : Int) : Bool :=
  !queryOk || (decide (maj = 1) && decide (min < 3)) || decide (maj < 1)

/-- The loop `do XNextEvent(dpy, &evt); while (evt.type != MapNotify);`
(lines 165-168) over the types of the events that arrive. `XNextEvent` blocks
on an empty queue, so a sequence without `MapNotify` gives no result. -/
def waitForMap : List Int → EngineImpl → Option EngineImpl
  | [], _ => none
  | t :: ts, s =>
      if t = MapNotify then some (s.emit (Call.XNextEvent s.dpy))
      else waitForMap ts (s.emit (Call.XNextEvent s.dpy))

/-- The second half of `InitWindow` (lines 170-190), after the window is
mapped: mode lines, OpenGL context, GLEW. -/
def InitWindow_context (env : X11Env) (s : EngineImpl) : Outcome :=
  let s : EngineImpl := s.emit (Call.XF86VidModeGetAllModeLines s.dpy)
  if env.modeLinesOk = false then
    Outcome.threw (s.emit (Call.XFree env.visual)) InitError.cannotRetrieveModes
  else
    let s : EngineImpl :=
      { s with modeCount := env.modeCount, modes := env.modeLine0 :: env.modeLinesRest }
    let s : EngineImpl := { s.emit (Call.glXCreateContext s.dpy env.visual) with context := env.newContext }
    let s : EngineImpl := s.emit (Call.XFree env.visual)
    if s.context = 0 then Outcome.threw s InitError.cannotCreateContext
    else
      let s : EngineImpl := s.emit (Call.glXMakeCurrent s.dpy s.wnd s.context)
      let s : EngineImpl := s.emit Call.glewInit
      if env.glewOk = false then Outcome.threw s InitError.cannotInitGLEW
      else Outcome.returned s

/-- The middle of `InitWindow` (lines 131-168), once a visual is chosen:
colormap, window, title, close protocol, mapping. -/
def InitWindow_window (env : X11Env) (s : EngineImpl) : Option Outcome :=
  let s : EngineImpl := { s.emit (Call.XCreateColormap s.dpy env.root) with colormap := env.newColormap }
  if s.colormap = 0 then
    some (Outcome.threw (s.emit (Call.XFree env.visual)) InitError.cannotCreateColormap)
  else
    let s : EngineImpl := { s.emit (Call.XCreateWindow s.dpy env.root
                 (toUInt32 s.wndWidth) (toUInt32 s.wndHeight)) with wnd := env.newWindow }
    if s.wnd = 0 then some (Outcome.threw s InitError.cannotCreateXWindow)
    else
      let s : EngineImpl := s.emit (Call.XStoreName s.dpy s.wnd s.wndTitle)
      let s : EngineImpl := { s.emit (Call.XInternAtom s.dpy "WM_DELETE_WINDOW") with
                 wndClose := env.closeAtom }
      let s : EngineImpl := s.emit (Call.XSetWMProtocols s.dpy s.wnd s.wndClose)
      let s : EngineImpl := s.emit (Call.XMapWindow s.dpy s.wnd)
      let s : EngineImpl := s.emit (Call.XSync s.dpy)
      match waitForMap env.mapEvents s with
      | none => none
      | some s => some (InitWindow_context env s)

/-- The method `EngineImpl::InitWindow` (lines 100-191). The result is `none`
when the wait for `MapNotify` never ends. -/
def InitWindow (env : X11Env) (s : EngineImpl) : Option Outcome :=
  let s : EngineImpl := { s.emit Call.XOpenDisplay with dpy := env.display }
  if s.dpy = 0 ∨ env.root = 0 then some (Outcome.threw s InitError.cannotOpenDisplay)
  else
    let s : EngineImpl := s.emit (Call.glXQueryVersion s.dpy)
    if glxVersionInvalid env.glxQueryOk env.glxMajor env.glxMinor = true then
      some (Outcome.threw s (InitError.invalidGLXVersion env.glxMajor env.glxMinor))
    else
      let s : EngineImpl := s.emit (Call.glXChooseVisual s.dpy)
      if env.visual = 0 then some (Outcome.threw s InitError.cannotChooseVisual)
      else InitWindow_window env s

/-! ## `DestroyWindow` and `UpdateWindow` -/

/-- The block guarded by `wndType.GetInt() == 1` in `DestroyWindow`
(lines 205-209). It reads `modes[0]`: while `modes` is the null pointer the
read is a null dereference and the block has no result. -/
def restoreDesktop (s : EngineImpl) : Option EngineImpl :=
  if s.wndType = 1 then
    match s.modes with
    | [] => none
    | mode0 :: _ =>
        some ((s.emit (Call.XF86VidModeSwitchToMode s.dpy mode0)).emit
          (Call.XF86VidModeSetViewPort s.dpy 0 0))
  else some s

/-- The method `EngineImpl::DestroyWindow` (lines 194-226): four guarded
release steps. The result is `none` when the second step dereferences the
null `modes`. -/
def DestroyWindow (s : EngineImpl) : Option EngineImpl :=
  let s : EngineImpl :=
    if s.context ≠ 0 then
      { (s.emit (Call.glXMakeCurrent s.dpy 0 0)).emit (Call.glXDestroyContext s.dpy s.context)
        with context := 0 }
    else s
  let r : Option EngineImpl :=
    if s.wnd ≠ 0 then
      (restoreDesktop s).map
        (fun s => { s.emit (Call.XDestroyWindow s.dpy s.wnd) with wnd := 0 })
    else some s
  r.map (fun s =>
    let s : EngineImpl :=
      if s.colormap ≠ 0 then
        { s.emit (Call.XFreeColormap s.dpy s.colormap) with colormap := 0 }
      else s
    if s.dpy ≠ 0 then { s.emit (Call.XCloseDisplay s.dpy) with dpy := 0 } else s)

/-- The expression `pos + ((extent - size) >> 1)` of lines 245-246 in `int`
arithmetic; `>>` on a negative `int` is the arithmetic shift. -/
def centred (pos extent size : Int) : Int :=
  wrapInt32 (pos + (wrapInt32 (extent - size) >>> (1 : Nat)))

/-- The method `EngineImpl::UpdateWindow` (lines 229-260). The `switch` over
`wndType.GetInt()` has the single label `case 0`. -/
def UpdateWindow (env : X11Env) (s : EngineImpl) : EngineImpl :=
  let s : EngineImpl := s.emit (Call.XGetWindowAttributes s.dpy env.root)
  let s : EngineImpl := s.emit (Call.XStoreName s.dpy s.wnd s.wndTitle)
  if s.wndType = 0 then
    let s : EngineImpl := s.emit (Call.XF86VidModeSwitchToMode s.dpy (s.modes.headD 0))
    let s : EngineImpl := s.emit (Call.XF86VidModeSetViewPort s.dpy 0 0)
    let x := centred env.rootAttr.x env.rootAttr.width s.wndWidth
    let y := centred env.rootAttr.y env.rootAttr.height s.wndHeight
    let width := s.wndWidth
    let height := s.wndHeight
    let s : EngineImpl := s.emit (Call.XMoveResizeWindow s.dpy s.wnd x y (toUInt32 width) (toUInt32 height))
    let s : EngineImpl := { s with vpWidth := width, vpHeight := height, vpReload := true }
    s.emit (Call.XChangeWindowAttributes s.dpy s.wnd)
  else s

/-! ## `Run` -/

/-- Modelled from the spec: `Engine::Quit` is defined in the base class
`Engine`, which is not among the sources; by the spec a `Quit` request sets
the running flag to false. The call itself is recorded. -/
def Quit (s : EngineImpl) : EngineImpl :=
  { s.emit Call.engineQuit with running := false }

/-- Modelled from the spec: `Engine::IsRunning` is defined in the base class
`Engine`, which is not among the sources; by the spec the frame driver tests
the same running flag that the loop condition reads. -/
def IsRunning (s : EngineImpl) : Bool := s.running

/-- The keyboard `InputEvent` built in the `KeyPress` and `KeyRelease` cases. -/
def keyboardEvent (pressed : Bool) (sym : KeySym) : InputEvent :=
  { type := EventType.EVT_KEYBOARD, state := pressed, key := TranslateKey sym }

/-- The `switch (xevt.type)` of `Run` (lines 278-310) for one event. The
close test compares the `long` data word with `(int)wndClose`. -/
def handleEvent (s : EngineImpl) (xevt : XEvent) : EngineImpl :=
  if xevt.type = ConfigureNotify ∨ xevt.type = ResizeRequest then s
  else if xevt.type = ClientMessage then
    if xevt.data_l0 = wrapInt32 (s.wndClose : Int) then Quit s else s
  else if xevt.type = KeyPress then
    (s.emit Call.XLookupKeysym).emit (Call.worldPostEvent (keyboardEvent true xevt.keysym))
  else if xevt.type = KeyRelease then
    (s.emit Call.XLookupKeysym).emit (Call.worldPostEvent (keyboardEvent false xevt.keysym))
  else s

/-- One pass through the body of `while (XPending(dpy) > 0)` (lines 275-311):
`XPending` answers a positive count, `XNextEvent` delivers `xevt`, and the
`switch` handles it. -/
def pump (s : EngineImpl) (xevt : XEvent) : EngineImpl :=
  handleEvent ((s.emit (Call.XPending s.dpy)).emit (Call.XNextEvent s.dpy)) xevt

/-- The loop `while (XPending(dpy) > 0)` of `Run` over the events found in
the queue; the last `XPending` answers zero. -/
def drain (evs : List XEvent) (s : EngineImpl) : EngineImpl :=
  let s : EngineImpl := evs.foldl pump s
  s.emit (Call.XPending s.dpy)

/-- The block guarded by `engine->IsRunning()` (lines 313-323). -/
def present (env : X11Env) (s : EngineImpl) : EngineImpl :=
  if IsRunning s = true then
    let s : EngineImpl :=
      if s.wndReload = true then { UpdateWindow env s with wndReload := false } else s
    (s.emit Call.rendererFrame).emit (Call.glXSwapBuffers s.dpy s.wnd)
  else s

/-- One pass through the body of `while (running)` (lines 274-324), given the
events found in the queue during that pass. -/
def tick (env : X11Env) (s : EngineImpl) (evs : List XEvent) : EngineImpl :=
  present env (drain evs s)

/-- The loop `while (running)` of `Run`, given for each pass the events found
in the queue. The result is `none` when the passes given are used up while
the flag is still set. -/
def RunLoop (env : X11Env) : List (List XEvent) → EngineImpl → Option EngineImpl
  | [], s => if s.running = true then none else some s
  | evs :: rest, s => if s.running = true then RunLoop env rest (tick env s evs) else some s

/-- The method `EngineImpl::Run` (lines 263-327). -/
def Run (env : X11Env) (ticks : List (List XEvent)) (s : EngineImpl) : Option EngineImpl :=
  (RunLoop env ticks ({ s with running := true }.emit Call.threadMngrStart)).map
    (fun s => s.emit Call.threadMngrStop)

/-! ## `Init`, `Destroy` and `main` -/

/-- The method `EngineImpl::InitLua` (lines 338-341), an empty body. -/
def InitLua (s : EngineImpl) : EngineImpl := s

/-- The method `EngineImpl::DestroyLua` (lines 344-347), an empty body. -/
def DestroyLua (s : EngineImpl) : EngineImpl := s

/-- The statements that make up the bodies of `Init` and `Destroy`. -/
inductive Stmt
  | InitLua
  | InitWindow
  | worldInit (script : String)
  | rendererInit
  | cacheInit
  | threadMngrInit
  | threadMngrSpawnWorld
  | threadMngrSpawnNetwork
  | threadMngrDestroy
  | rendererDestroy
  | cacheDestroy
  | worldDestroy
  | DestroyWindow
  | DestroyLua
  deriving DecidableEq, Repr

/-- The body of `EngineImpl::Init` (lines 78-85), statement by statement. -/
def InitBody : List Stmt :=
  [Stmt.InitLua, Stmt.InitWindow, Stmt.worldInit "assets/scripts/test.lua",
   Stmt.rendererInit, Stmt.cacheInit, Stmt.threadMngrInit,
   Stmt.threadMngrSpawnWorld, Stmt.threadMngrSpawnNetwork]

/-- The body of `EngineImpl::Destroy` (lines 91-96), statement by statement. -/
def DestroyBody : List Stmt :=
  [Stmt.threadMngrDestroy, Stmt.rendererDestroy, Stmt.cacheDestroy,
   Stmt.worldDestroy, Stmt.DestroyWindow, Stmt.DestroyLua]

/-- Runs one statement of `Init` or `Destroy`. -/
def exec (env : X11Env) : Stmt → EngineImpl → Option Outcome
  | Stmt.InitLua, s => some (Outcome.returned (InitLua s))
  | Stmt.InitWindow, s => InitWindow env s
  | Stmt.worldInit script, s => some (Outcome.returned (s.emit (Call.worldInit script)))
  | Stmt.rendererInit, s => some (Outcome.returned (s.emit Call.rendererInit))
  | Stmt.cacheInit, s => some (Outcome.returned (s.emit Call.cacheInit))
  | Stmt.threadMngrInit, s => some (Outcome.returned (s.emit Call.threadMngrInit))
  | Stmt.threadMngrSpawnWorld, s => some (Outcome.returned (s.emit Call.threadMngrSpawnWorld))
  | Stmt.threadMngrSpawnNetwork, s =>
      some (Outcome.returned (s.emit Call.threadMngrSpawnNetwork))
  | Stmt.threadMngrDestroy, s => some (Outcome.returned (s.emit Call.threadMngrDestroy))
  | Stmt.rendererDestroy, s => some (Outcome.returned (s.emit Call.rendererDestroy))
  | Stmt.cacheDestroy, s => some (Outcome.returned (s.emit Call.cacheDestroy))
  | Stmt.worldDestroy, s => some (Outcome.returned (s.emit Call.worldDestroy))
  | Stmt.DestroyWindow, s => (DestroyWindow s).map Outcome.returned
  | Stmt.DestroyLua, s => some (Outcome.returned (DestroyLua s))

/-- Runs statements in sequence; an error leaves the sequence at once. -/
def execAll (env : X11Env) : List Stmt → EngineImpl → Option Outcome
  | [], s => some (Outcome.returned s)
  | st :: rest, s =>
      match exec env st s with
      | some (Outcome.returned s1) => execAll env rest s1
      | other => other

/-- The method `EngineImpl::Init` (lines 76-86). -/
def Init (env : X11Env) (s : EngineImpl) : Option Outcome := execAll env InitBody s

/-- The method `EngineImpl::Destroy` (lines 89-97). -/
def Destroy (env : X11Env) (s : EngineImpl) : Option Outcome := execAll env DestroyBody s

/-- The subsystems that `Init` brings up and `Destroy` tears down. -/
inductive Subsystem
  | scripting
  | window
  | world
  | renderer
  | cache
  | threadMngr
  deriving DecidableEq, Repr

/-- The subsystem a statement brings up, if it brings one up. -/
def Stmt.initialises : Stmt → Option Subsystem
  | Stmt.InitLua => some Subsystem.scripting
  | Stmt.InitWindow => some Subsystem.window
  | Stmt.worldInit _ => some Subsystem.world
  | Stmt.rendererInit => some Subsystem.renderer
  | Stmt.cacheInit => some Subsystem.cache
  | Stmt.threadMngrInit => some Subsystem.threadMngr
  | _ => none

/-- The subsystem a statement tears down, if it tears one down. -/
def Stmt.tearsDown : Stmt → Option Subsystem
  | Stmt.DestroyLua => some Subsystem.scripting
  | Stmt.DestroyWindow => some Subsystem.window
  | Stmt.worldDestroy => some Subsystem.world
  | Stmt.rendererDestroy => some Subsystem.renderer
  | Stmt.cacheDestroy => some Subsystem.cache
  | Stmt.threadMngrDestroy => some Subsystem.threadMngr
  | _ => none

/-- The order in which `Init` brings the subsystems up. -/
def initOrder : List Subsystem := InitBody.filterMap Stmt.initialises

/-- The order in which `Destroy` tears the subsystems down. -/
def destroyOrder : List Subsystem := DestroyBody.filterMap Stmt.tearsDown

/-- Value of `EXIT_SUCCESS`. -/
def EXIT_SUCCESS : Int := 0
/-- Value of `EXIT_FAILURE`. -/
def EXIT_FAILURE : Int := 1

/-- The function `main` (lines 350-365): `Init`, `Run`, `Destroy`, and on an
error `Destroy` from the handler. The result is the final engine object and
the exit status. -/
def main (env : X11Env) (ticks : List (List XEvent)) (s : EngineImpl) :
    Option (EngineImpl × Int) :=
  match Init env s with
  | none => none
  | some (Outcome.threw s1 _) => (Destroy env s1).map (fun o => (o.state, EXIT_FAILURE))
  | some (Outcome.returned s1) =>
      match Run env ticks s1 with
      | none => none
      | some s2 => (Destroy env s2).map (fun o => (o.state, EXIT_SUCCESS))

/-! ## Observations on traces -/

/-- The calls issued between the state `s` and the later state `t`. -/
def callsSince (s t : EngineImpl) : List Call := t.trace.drop s.trace.length

/-- The input events posted to `World` among some calls, in order. -/
def postedEvents (cs : List Call) : List InputEvent :=
  cs.filterMap (fun c => match c with
    | Call.worldPostEvent e => some e
    | _ => none)

/-- Whether a call renders or presents a frame. -/
def Call.isFrameOrSwap : Call → Bool
  | Call.rendererFrame => true
  | Call.glXSwapBuffers _ _ => true
  | _ => false

/-- Whether a call releases a display resource. -/
def Call.isDestroying : Call → Bool
  | Call.glXDestroyContext _ _ => true
  | Call.XDestroyWindow _ _ => true
  | Call.XFreeColormap _ _ => true
  | Call.XCloseDisplay _ => true
  | Call.XFree _ => true
  | _ => false

/-- Whether a call is `XGetWindowAttributes`, the first call of `UpdateWindow`. -/
def Call.isGetWindowAttributes : Call → Bool
  | Call.XGetWindowAttributes _ _ => true
  | _ => false

/-- The input event a pending X event is forwarded as, if it is a key event. -/
def forwarded (xevt : XEvent) : Option InputEvent :=
  if xevt.type = KeyPress then some (keyboardEvent true xevt.keysym)
  else if xevt.type = KeyRelease then some (keyboardEvent false xevt.keysym)
  else none

/-- Whether a pending X event is a client message carrying the close token. -/
def isCloseMessage (wndClose : Nat) (xevt : XEvent) : Bool :=
  decide (xevt.type = ClientMessage) && decide (xevt.data_l0 = (wndClose : Int))

/-- The option pool of the configuration variable `wndType` (line 7). -/
def wndTypePool : List String := ["windowed"]

/-- Modelled from the spec: the class `CVar` is not among the sources; by
the spec the window type is a configuration value whose only enumerated
option is `windowed`, so `wndType.GetInt()` is the index of an entry of
`wndTypePool`. -/
def wndTypeInPool (s : EngineImpl) : Prop :=
  0 ≤ s.wndType ∧ s.wndType < (wndTypePool.length : Int)

instance (s : EngineImpl) : Decidable (wndTypeInPool s) := by
  unfold wndTypeInPool; infer_instance

/-- The precondition of the read of `modes[0]` at line 207: if the window
handle is set and the window type is 1, the mode lines have been captured. -/
def modesReadable (s : EngineImpl) : Prop :=
  s.wnd ≠ 0 → s.wndType = 1 → s.modes ≠ []

instance (s : EngineImpl) : Decidable (modesReadable s) := by
  unfold modesReadable; infer_instance

/-- The engine object at the loop condition of `Run`, before the first pass. -/
def runStart (s : EngineImpl) : EngineImpl :=
  { s with running := true }.emit Call.threadMngrStart

/-- A sample environment in which every step of `InitWindow` succeeds, on a
1920 x 1080 root window. -/
def sampleEnv : X11Env :=
  { display := 1, root := 2, glxQueryOk := true, glxMajor := 1, glxMinor := 4,
    visual := 3, newColormap := 4, newWindow := 5, closeAtom := 6,
    mapEvents := [ConfigureNotify, MapNotify], modeLinesOk := true, modeCount := 1,
    modeLine0 := 7, modeLinesRest := [], newContext := 8, glewOk := true,
    rootAttr := { x := 0, y := 0, width := 1920, height := 1080 } }

/-- The sample environment with `glXCreateContext` answering `NULL`. -/
def noContextEnv : X11Env := { sampleEnv with newContext := 0 }

/-- A freshly constructed engine object, windowed, 800 x 600, titled T. -/
def freshEngine : EngineImpl := EngineImpl.new 0 800 600 "T" false

/-- An engine object with its window up and the loop running, the reload flag
set, and the given window type and configured size. -/
def liveEngine (wndType wndWidth wndHeight : Int) : EngineImpl :=
  { dpy := 1, wnd := 5, wndClose := 6, context := 8, colormap := 4,
    modes := [7], modeCount := 1, running := true,
    wndType := wndType, wndWidth := wndWidth, wndHeight := wndHeight,
    wndTitle := "T", wndReload := true,
    vpWidth := 0, vpHeight := 0, vpReload := false, trace := [] }

/-- A sample queue: press of the key a, the close message for token 6,
press of the key w. -/
def sampleQuitEvents : List XEvent :=
  [{ type := KeyPress, data_l0 := 0, keysym := XK_a },
   { type := ClientMessage, data_l0 := 6, keysym := 0 },
   { type := KeyPress, data_l0 := 0, keysym := XK_w }]

/-- Whether the `ClientMessage` case of `Run` calls `Quit` for an event: the
type is `ClientMessage` and the data word equals `(int)wndClose`. -/
def closes (wndClose : Nat) (xevt : XEvent) : Bool :=
  decide (xevt.type = ClientMessage) && decide (xevt.data_l0 = wrapInt32 (wndClose : Int))

/-- The calls that the `switch` of `Run` issues for one event. -/
def handleCalls (wndClose : Nat) (xevt : XEvent) : List Call :=
  if closes wndClose xevt = true then [Call.engineQuit]
  else if xevt.type = KeyPress then
    [Call.XLookupKeysym, Call.worldPostEvent (keyboardEvent true xevt.keysym)]
  else if xevt.type = KeyRelease then
    [Call.XLookupKeysym, Call.worldPostEvent (keyboardEvent false xevt.keysym)]
  else []

/-- The calls that one pass of the inner loop of `Run` issues. -/
def pumpCalls (dpy wndClose : Nat) (xevt : XEvent) : List Call :=
  [Call.XPending dpy, Call.XNextEvent dpy] ++ handleCalls wndClose xevt

/-- The calls that one event drain of `Run` issues. -/
def drainCalls (dpy wndClose : Nat) (evs : List XEvent) : List Call :=
  evs.flatMap (pumpCalls dpy wndClose) ++ [Call.XPending dpy]

/-- The calls that `DestroyWindow` issues from the state `s` when it returns
(the read of `modes[0]` then is of a captured mode line). -/
def destroyCalls (s : EngineImpl) : List Call :=
  (if s.context ≠ 0 then
    [Call.glXMakeCurrent s.dpy 0 0, Call.glXDestroyContext s.dpy s.context] else []) ++
  (if s.wnd ≠ 0 then
    (if s.wndType = 1 then
      [Call.XF86VidModeSwitchToMode s.dpy (s.modes.headD 0),
       Call.XF86VidModeSetViewPort s.dpy 0 0] else []) ++
    [Call.XDestroyWindow s.dpy s.wnd] else []) ++
  (if s.colormap ≠ 0 then [Call.XFreeColormap s.dpy s.colormap] else []) ++
  (if s.dpy ≠ 0 then [Call.XCloseDisplay s.dpy] else [])

/-- The calls that `InitWindow` issues up to the failed context creation,
with `n` events read while waiting for `MapNotify`. -/
def contextFailureCalls (env : X11Env) (s : EngineImpl) (n : Nat) : List Call :=
  [Call.XOpenDisplay, Call.glXQueryVersion env.display, Call.glXChooseVisual env.display,
   Call.XCreateColormap env.display env.root,
   Call.XCreateWindow env.display env.root (toUInt32 s.wndWidth) (toUInt32 s.wndHeight),
   Call.XStoreName env.display env.newWindow s.wndTitle,
   Call.XInternAtom env.display "WM_DELETE_WINDOW",
   Call.XSetWMProtocols env.display env.newWindow env.closeAtom,
   Call.XMapWindow env.display env.newWindow, Call.XSync env.display] ++
  List.replicate n (Call.XNextEvent env.display) ++
  [Call.XF86VidModeGetAllModeLines env.display,
   Call.glXCreateContext env.display env.visual, Call.XFree env.visual]

/-! ## Theorems -/

/-- C1. `TranslateKey` is a total function of the key symbol alone: it maps
each of the eleven symbols with a `case` label to its key code, and every
other key symbol to `KEY_UNDEF`. -/
theorem TranslateKey_table :
    TranslateKey XK_Escape = KeyButton.KEY_ESC ∧
    TranslateKey XK_Shift_L = KeyButton.KEY_SHIFT ∧
    TranslateKey XK_Shift_R = KeyButton.KEY_SHIFT ∧
    TranslateKey XK_Control_L = KeyButton.KEY_CTRL ∧
    TranslateKey XK_Control_R = KeyButton.KEY_CTRL ∧
    TranslateKey XK_space = KeyButton.KEY_SPACE ∧
    TranslateKey XK_Return = KeyButton.KEY_ENTER ∧
    TranslateKey XK_a = KeyButton.KEY_A ∧
    TranslateKey XK_w = KeyButton.KEY_W ∧
    TranslateKey XK_s = KeyButton.KEY_S ∧
    TranslateKey XK_d = KeyButton.KEY_D ∧
    (∀ sym : KeySym, sym ∉ mappedKeySyms → TranslateKey sym = KeyButton.KEY_UNDEF) := by
  refine ⟨by decide, by decide, by decide, by decide, by decide, by decide, by decide,
    by decide, by decide, by decide, by decide, ?_⟩
  intro sym h
  simp only [mappedKeySyms, List.mem_cons, List.not_mem_nil, or_false, not_or] at h
  obtain ⟨h1, h2, h3, h4, h5, h6, h7, h8, h9, h10, h11⟩ := h
  simp [TranslateKey, h1, h2, h3, h4, h5, h6, h7, h8, h9, h10, h11]

/-- Witness for C1: the key symbol of the letter b (0x62) has no `case` label
and is translated to `KEY_UNDEF`. -/
theorem TranslateKey_table_witness :
    (0x62 : KeySym) ∉ mappedKeySyms ∧ TranslateKey 0x62 = KeyButton.KEY_UNDEF :=
  ⟨by decide, TranslateKey_table.2.2.2.2.2.2.2.2.2.2.2 0x62 (by decide)⟩

/-! ### Order of start-up and shutdown -/

/-- C8, as stated, fails: the order in which `Destroy` tears the subsystems
down is not the reverse of the order in which `Init` brings them up. -/
theorem destroyOrder_ne_reverse_initOrder : destroyOrder ≠ initOrder.reverse := by
  decide

/-- C8, amended. `Init` brings up scripting, window, World, Renderer, Cache,
Thread Manager in that order; `Destroy` tears down Thread Manager, Renderer,
Cache, World, window, scripting in that order, which is the reverse of the
start-up order for every pair of subsystems other than Renderer and Cache;
those two are torn down in the order they were brought up. `Destroy` runs
its six statements in that order from every state, `DestroyWindow` fifth. -/
theorem destroyOrder_reverse_up_to_renderer_cache :
    initOrder = [Subsystem.scripting, Subsystem.window, Subsystem.world,
      Subsystem.renderer, Subsystem.cache, Subsystem.threadMngr] ∧
    destroyOrder = [Subsystem.threadMngr, Subsystem.renderer, Subsystem.cache,
      Subsystem.world, Subsystem.window, Subsystem.scripting] ∧
    (∀ a b : Subsystem,
      ¬ (a = Subsystem.renderer ∧ b = Subsystem.cache) →
      ¬ (a = Subsystem.cache ∧ b = Subsystem.renderer) →
      (initOrder.indexOf a < initOrder.indexOf b ↔
        destroyOrder.indexOf b < destroyOrder.indexOf a)) ∧
    (initOrder.indexOf Subsystem.renderer < initOrder.indexOf Subsystem.cache ∧
      destroyOrder.indexOf Subsystem.renderer < destroyOrder.indexOf Subsystem.cache) ∧
    (∀ (env : X11Env) (s : EngineImpl),
      Destroy env s = (DestroyWindow
        ((((s.emit Call.threadMngrDestroy).emit Call.rendererDestroy).emit
          Call.cacheDestroy).emit Call.worldDestroy)).map
        (fun t => Outcome.returned (DestroyLua t))) := by
  refine ⟨by decide, by decide, ?_, by decide, ?_⟩
  · intro a b h1 h2
    cases a <;> cases b <;> simp at h1 h2 <;> decide
  · intro env s
    cases h : DestroyWindow ((((s.emit Call.threadMngrDestroy).emit
        Call.rendererDestroy).emit Call.cacheDestroy).emit Call.worldDestroy) <;>
      simp [Destroy, DestroyBody, execAll, exec, h, DestroyLua]

/-- Witness for C8 (amended): World is brought up before Cache and torn down
after it. -/
theorem destroyOrder_reverse_up_to_renderer_cache_witness :
    (initOrder.indexOf Subsystem.world < initOrder.indexOf Subsystem.cache ↔
      destroyOrder.indexOf Subsystem.cache < destroyOrder.indexOf Subsystem.world) :=
  destroyOrder_reverse_up_to_renderer_cache.2.2.1 Subsystem.world Subsystem.cache
    (by decide) (by decide)

/-! ### Machine arithmetic -/

theorem wrapInt32_of_InInt32 (n : Int) (h : InInt32 n) : wrapInt32 n = n := by
  unfold InInt32 at h
  unfold wrapInt32
  split <;> omega

theorem toUInt32_of_nonneg (n : Int) (h0 : 0 ≤ n) (h1 : n < 4294967296) : toUInt32 n = n := by
  unfold toUInt32
  omega

theorem shiftRight_one (n : Int) : n >>> (1 : Nat) = n / 2 := by
  rw [Int.shiftRight_eq_div_pow]
  norm_num

theorem floor_half (n : Int) : ⌊(n : ℚ) / 2⌋ = n / 2 := by
  rw [Int.floor_eq_iff]
  have h1 : (n : ℚ) = 2 * ((n / 2 : Int) : ℚ) + ((n % 2 : Int) : ℚ) := by
    have h := Int.ediv_add_emod n 2
    exact_mod_cast h.symm
  have h2 : (0 : ℚ) ≤ ((n % 2 : Int) : ℚ) := by
    exact_mod_cast Int.emod_nonneg n (by norm_num)
  have h3 : ((n % 2 : Int) : ℚ) < 2 := by
    exact_mod_cast Int.emod_lt_of_pos n (by norm_num)
  constructor <;> linarith

theorem centred_eq (pos extent size : Int) (hd : InInt32 (extent - size))
    (hx : InInt32 (pos + (extent - size) / 2)) :
    centred pos extent size = pos + (extent - size) / 2 := by
  unfold centred
  rw [wrapInt32_of_InInt32 _ hd, shiftRight_one, wrapInt32_of_InInt32 _ hx]

/-! ### Traces -/

@[simp] theorem emit_trace (s : EngineImpl) (c : Call) : (s.emit c).trace = s.trace ++ [c] := rfl

theorem callsSince_append (s t : EngineImpl) (cs : List Call) (h : t.trace = s.trace ++ cs) :
    callsSince s t = cs := by
  unfold callsSince
  rw [h, List.drop_left]

/-! ### The GLX version check -/

theorem glxVersionInvalid_iff (queryOk : Bool) (maj min : Int) :
    glxVersionInvalid queryOk maj min = true ↔
      (queryOk = false ∨ maj < 1 ∨ (maj = 1 ∧ min < 3)) := by
  unfold glxVersionInvalid
  cases queryOk
  · simp
  · simp
    tauto

theorem InitWindow_context_not_glx (env : X11Env) (s : EngineImpl) (t : EngineImpl)
    (maj min : Int) :
    InitWindow_context env s ≠ Outcome.threw t (InitError.invalidGLXVersion maj min) := by
  unfold InitWindow_context
  intro h
  simp only at h
  split at h
  · simp at h
  · split at h
    · simp at h
    · split at h <;> simp at h

theorem InitWindow_window_not_glx (env : X11Env) (s : EngineImpl) (t : EngineImpl)
    (maj min : Int) :
    InitWindow_window env s ≠ some (Outcome.threw t (InitError.invalidGLXVersion maj min)) := by
  unfold InitWindow_window
  intro h
  simp only at h
  split at h
  · simp at h
  · split at h
    · simp at h
    · split at h
      · simp at h
      · simp only [Option.some.injEq] at h
        exact InitWindow_context_not_glx _ _ _ _ _ h

/-- C9. With the display open, `InitWindow` signals the invalid-GLX-version
error exactly when `glXQueryVersion` fails or the reported version is below
(1, 3) in the lexicographic order; a successful query reporting a major
version above 1, or major version 1 with a minor version of at least 3,
passes the check, for all integers. -/
theorem InitWindow_glx_version_check (env : X11Env) (s : EngineImpl)
    (hdpy : env.display ≠ 0) (hroot : env.root ≠ 0) :
    ((∃ t maj min, InitWindow env s =
        some (Outcome.threw t (InitError.invalidGLXVersion maj min))) ↔
      (env.glxQueryOk = false ∨ env.glxMajor < 1 ∨
        (env.glxMajor = 1 ∧ env.glxMinor < 3))) ∧
    (∀ maj min : Int, glxVersionInvalid true maj min = false ↔
      (maj > 1 ∨ (maj = 1 ∧ min ≥ 3))) := by
  constructor
  · rw [← glxVersionInvalid_iff]
    constructor
    · rintro ⟨t, maj, min, h⟩
      by_contra hv
      rw [Bool.not_eq_true] at hv
      unfold InitWindow at h
      simp only [hdpy, hroot, or_self, if_false, hv, Bool.false_eq_true] at h
      split at h
      · simp at h
      · exact InitWindow_window_not_glx _ _ _ _ _ h
    · intro hv
      unfold InitWindow
      simp only [hdpy, hroot, or_self, if_false, hv, if_true]
      exact ⟨_, _, _, rfl⟩
  · intro maj min
    have h := glxVersionInvalid_iff true maj min
    rw [← Bool.not_eq_true, h]
    simp only [Bool.true_eq_false, false_or, not_or, not_and, not_lt]
    omega

/-- Witness for C9: on the sample display a query reporting GLX 1.2 makes
`InitWindow` signal the invalid-GLX-version error. -/
theorem InitWindow_glx_version_check_witness :
    ((∃ t maj min, InitWindow { sampleEnv with glxMinor := 2 } freshEngine =
        some (Outcome.threw t (InitError.invalidGLXVersion maj min))) ↔
      (({ sampleEnv with glxMinor := 2 } : X11Env).glxQueryOk = false ∨
        ({ sampleEnv with glxMinor := 2 } : X11Env).glxMajor < 1 ∨
        (({ sampleEnv with glxMinor := 2 } : X11Env).glxMajor = 1 ∧
          ({ sampleEnv with glxMinor := 2 } : X11Env).glxMinor < 3))) :=
  (InitWindow_glx_version_check { sampleEnv with glxMinor := 2 } freshEngine
    (by decide) (by decide)).1

/-! ### `DestroyWindow` -/

theorem DestroyWindow_of_released (s : EngineImpl) (hd : s.dpy = 0) (hw : s.wnd = 0)
    (hc : s.context = 0) (hm : s.colormap = 0) : DestroyWindow s = some s := by
  unfold DestroyWindow
  simp [hd, hw, hc, hm]

theorem DestroyWindow_eq (s : EngineImpl) (h : modesReadable s) :
    DestroyWindow s =
      some { s with dpy := 0, wnd := 0, context := 0, colormap := 0,
                    trace := s.trace ++ destroyCalls s } := by
  rcases s with ⟨dpy, wnd, wndClose, context, colormap, modes, modeCount, running, wndType,
    wndWidth, wndHeight, wndTitle, wndReload, vpWidth, vpHeight, vpReload, trace⟩
  unfold modesReadable at h
  unfold DestroyWindow restoreDesktop destroyCalls
  by_cases hw : wnd = 0
  · by_cases hc : context = 0 <;> by_cases hm : colormap = 0 <;> by_cases hd : dpy = 0 <;>
      by_cases ht : wndType = 1 <;>
      simp [hc, hw, hm, hd, ht, EngineImpl.emit]
  · by_cases ht : wndType = 1
    · cases modes with
      | nil => exact absurd rfl (h hw ht)
      | cons mode0 rest =>
        by_cases hc : context = 0 <;> by_cases hm : colormap = 0 <;> by_cases hd : dpy = 0 <;>
          simp [hc, hw, hm, hd, ht, EngineImpl.emit]
    · by_cases hc : context = 0 <;> by_cases hm : colormap = 0 <;> by_cases hd : dpy = 0 <;>
        simp [hc, hw, hm, hd, ht, EngineImpl.emit]

theorem DestroyWindow_faults (s : EngineImpl) (h : ¬ modesReadable s) :
    DestroyWindow s = none := by
  unfold modesReadable at h
  have hw : s.wnd ≠ 0 := fun hw => h (fun h1 => absurd hw h1)
  have ht : s.wndType = 1 := by
    by_contra ht
    exact h (fun _ h1 => absurd h1 ht)
  have hm : s.modes = [] := by
    by_contra hm
    exact h (fun _ _ => hm)
  unfold DestroyWindow restoreDesktop
  by_cases hc : s.context = 0 <;> simp [hc, hw, ht, hm, EngineImpl.emit]

/-- C2. From every state of the display resources (`dpy`, `wnd`, `context`,
`colormap`, each null or not) in which line 207 does not read `modes[0]`
through the null pointer (the window type is not 1, as for every option of
the pool, or the mode lines have been captured, or `wnd` is null), one run
of `DestroyWindow` returns with all four fields null, and a second run
issues no call at all and leaves the state unchanged. -/
theorem DestroyWindow_idempotent (s : EngineImpl) (h : modesReadable s) :
    ∃ t : EngineImpl,
      DestroyWindow s = some t ∧
      t.dpy = 0 ∧ t.wnd = 0 ∧ t.context = 0 ∧ t.colormap = 0 ∧
      (DestroyWindow t).map (callsSince t) = some [] ∧
      DestroyWindow t = some t := by
  refine ⟨_, DestroyWindow_eq s h, rfl, rfl, rfl, rfl, ?_, ?_⟩
  · rw [DestroyWindow_of_released _ rfl rfl rfl rfl]
    simp [callsSince]
  · exact DestroyWindow_of_released _ rfl rfl rfl rfl

/-- Witness for C2: an engine with all four handles set, window type 1 and
one captured mode line; and a windowed engine with all four handles set and
no mode line captured. -/
theorem DestroyWindow_idempotent_witness :
    (modesReadable (liveEngine 1 800 600) ∧
      ∃ t : EngineImpl, DestroyWindow (liveEngine 1 800 600) = some t ∧
        t.dpy = 0 ∧ t.wnd = 0 ∧ t.context = 0 ∧ t.colormap = 0 ∧
        DestroyWindow t = some t) ∧
    (modesReadable { liveEngine 0 800 600 with modes := [] } ∧
      ∃ t : EngineImpl, DestroyWindow { liveEngine 0 800 600 with modes := [] } = some t ∧
        t.dpy = 0 ∧ t.wnd = 0 ∧ t.context = 0 ∧ t.colormap = 0 ∧
        DestroyWindow t = some t) := by
  obtain ⟨t, h1, h2, h3, h4, h5, -, h7⟩ :=
    DestroyWindow_idempotent (liveEngine 1 800 600) (by decide)
  obtain ⟨u, k1, k2, k3, k4, k5, -, k7⟩ :=
    DestroyWindow_idempotent { liveEngine 0 800 600 with modes := [] } (by decide)
  exact ⟨⟨by decide, t, h1, h2, h3, h4, h5, h7⟩, ⟨by decide, u, k1, k2, k3, k4, k5, k7⟩⟩

/-! ### `UpdateWindow` -/

theorem UpdateWindow_windowed (env : X11Env) (s : EngineImpl) (h0 : s.wndType = 0) :
    UpdateWindow env s =
      { s with
        vpWidth := s.wndWidth, vpHeight := s.wndHeight, vpReload := true,
        trace := s.trace ++
          [Call.XGetWindowAttributes s.dpy env.root,
           Call.XStoreName s.dpy s.wnd s.wndTitle,
           Call.XF86VidModeSwitchToMode s.dpy (s.modes.headD 0),
           Call.XF86VidModeSetViewPort s.dpy 0 0,
           Call.XMoveResizeWindow s.dpy s.wnd
             (centred env.rootAttr.x env.rootAttr.width s.wndWidth)
             (centred env.rootAttr.y env.rootAttr.height s.wndHeight)
             (toUInt32 s.wndWidth) (toUInt32 s.wndHeight),
           Call.XChangeWindowAttributes s.dpy s.wnd] } := by
  unfold UpdateWindow
  simp [h0, EngineImpl.emit]

theorem UpdateWindow_other (env : X11Env) (s : EngineImpl) (h0 : s.wndType ≠ 0) :
    UpdateWindow env s =
      { s with
        trace := s.trace ++
          [Call.XGetWindowAttributes s.dpy env.root,
           Call.XStoreName s.dpy s.wnd s.wndTitle] } := by
  unfold UpdateWindow
  simp [h0, EngineImpl.emit]

/-- C10. In the windowed case of `UpdateWindow`, when the two subtractions
and the two additions stay within `int`, the window is moved to
`x = rx + floor((rw - w) / 2)`, `y = ry + floor((rh - h) / 2)` with the
configured size passed as its width and height (unchanged when not negative),
so that the right margin exceeds the left margin by 0 or 1 and the bottom
margin exceeds the top margin by 0 or 1, also when `w > rw` or `h > rh`. -/
theorem UpdateWindow_centres (env : X11Env) (s : EngineImpl) (h0 : s.wndType = 0)
    (hdx : InInt32 (env.rootAttr.width - s.wndWidth))
    (hdy : InInt32 (env.rootAttr.height - s.wndHeight))
    (hx : InInt32 (env.rootAttr.x + (env.rootAttr.width - s.wndWidth) / 2))
    (hy : InInt32 (env.rootAttr.y + (env.rootAttr.height - s.wndHeight) / 2)) :
    ∃ x y : Int,
      callsSince s (UpdateWindow env s) =
        [Call.XGetWindowAttributes s.dpy env.root,
         Call.XStoreName s.dpy s.wnd s.wndTitle,
         Call.XF86VidModeSwitchToMode s.dpy (s.modes.headD 0),
         Call.XF86VidModeSetViewPort s.dpy 0 0,
         Call.XMoveResizeWindow s.dpy s.wnd x y (toUInt32 s.wndWidth) (toUInt32 s.wndHeight),
         Call.XChangeWindowAttributes s.dpy s.wnd] ∧
      x = env.rootAttr.x + ⌊((env.rootAttr.width - s.wndWidth : Int) : ℚ) / 2⌋ ∧
      y = env.rootAttr.y + ⌊((env.rootAttr.height - s.wndHeight : Int) : ℚ) / 2⌋ ∧
      (0 ≤ s.wndWidth → s.wndWidth < 4294967296 → toUInt32 s.wndWidth = s.wndWidth) ∧
      (0 ≤ s.wndHeight → s.wndHeight < 4294967296 → toUInt32 s.wndHeight = s.wndHeight) ∧
      (let left := x - env.rootAttr.x
       let right := (env.rootAttr.x + env.rootAttr.width) - (x + s.wndWidth)
       right - left = 0 ∨ right - left = 1) ∧
      (let top := y - env.rootAttr.y
       let bottom := (env.rootAttr.y + env.rootAttr.height) - (y + s.wndHeight)
       bottom - top = 0 ∨ bottom - top = 1) := by
  refine ⟨env.rootAttr.x + (env.rootAttr.width - s.wndWidth) / 2,
    env.rootAttr.y + (env.rootAttr.height - s.wndHeight) / 2, ?_, ?_, ?_,
    toUInt32_of_nonneg _, toUInt32_of_nonneg _, ?_, ?_⟩
  · apply callsSince_append
    rw [UpdateWindow_windowed env s h0, centred_eq _ _ _ hdx hx, centred_eq _ _ _ hdy hy]
  · rw [floor_half]
  · rw [floor_half]
  · simp only
    omega
  · simp only
    omega

/-- Witness for C10: a 2560 x 600 window on the 1920 x 1080 sample root is
moved to x = -320 (a negative value is shifted), y = 240. -/
theorem UpdateWindow_centres_witness :
    InInt32 (sampleEnv.rootAttr.width - (liveEngine 0 2560 600).wndWidth) ∧
    InInt32 (sampleEnv.rootAttr.height - (liveEngine 0 2560 600).wndHeight) ∧
    InInt32 (sampleEnv.rootAttr.x +
      (sampleEnv.rootAttr.width - (liveEngine 0 2560 600).wndWidth) / 2) ∧
    InInt32 (sampleEnv.rootAttr.y +
      (sampleEnv.rootAttr.height - (liveEngine 0 2560 600).wndHeight) / 2) ∧
    ∃ x y : Int,
      callsSince (liveEngine 0 2560 600) (UpdateWindow sampleEnv (liveEngine 0 2560 600)) =
        [Call.XGetWindowAttributes 1 2, Call.XStoreName 1 5 "T",
         Call.XF86VidModeSwitchToMode 1 7, Call.XF86VidModeSetViewPort 1 0 0,
         Call.XMoveResizeWindow 1 5 x y 2560 600, Call.XChangeWindowAttributes 1 5] ∧
      x = -320 ∧ y = 240 := by
  obtain ⟨x, y, ht, hx, hy, hw, hh, -, -⟩ :=
    UpdateWindow_centres sampleEnv (liveEngine 0 2560 600) rfl (by decide) (by decide)
      (by decide) (by decide)
  refine ⟨by decide, by decide, by decide, by decide, x, y, ?_, ?_, ?_⟩
  · rw [ht, hw (by decide) (by decide), hh (by decide) (by decide)]
    rfl
  · rw [hx, floor_half]
    decide
  · rw [hy, floor_half]
    decide

/-! ### The event drain -/

theorem pump_eq (s : EngineImpl) (xevt : XEvent) :
    pump s xevt =
      { s with
        running := s.running && !closes s.wndClose xevt,
        trace := s.trace ++ pumpCalls s.dpy s.wndClose xevt } := by
  unfold pump handleEvent pumpCalls handleCalls closes Quit
  by_cases h1 : xevt.type = ConfigureNotify
  · simp [h1, EngineImpl.emit, ConfigureNotify, ClientMessage, KeyPress, KeyRelease]
  by_cases h2 : xevt.type = ResizeRequest
  · simp [h2, EngineImpl.emit, ResizeRequest, ClientMessage, KeyPress, KeyRelease]
  by_cases h3 : xevt.type = ClientMessage
  · by_cases h4 : xevt.data_l0 = wrapInt32 (s.wndClose : Int)
    · simp [h3, h4, EngineImpl.emit, ResizeRequest, ClientMessage, ConfigureNotify]
    · simp [h3, h4, EngineImpl.emit, ResizeRequest, ClientMessage, ConfigureNotify,
        KeyPress, KeyRelease]
  by_cases h5 : xevt.type = KeyPress
  · simp [h5, EngineImpl.emit, ResizeRequest, ClientMessage, ConfigureNotify, KeyPress]
  by_cases h6 : xevt.type = KeyRelease
  · simp [h6, EngineImpl.emit, ResizeRequest, ClientMessage, ConfigureNotify, KeyPress,
      KeyRelease]
  simp [h1, h2, h3, h5, h6, EngineImpl.emit]

theorem foldl_pump_eq (evs : List XEvent) (s : EngineImpl) :
    evs.foldl pump s =
      { s with
        running := s.running && !evs.any (closes s.wndClose),
        trace := s.trace ++ evs.flatMap (pumpCalls s.dpy s.wndClose) } := by
  induction evs generalizing s with
  | nil => simp
  | cons e rest ih =>
    rw [List.foldl_cons, ih, pump_eq]
    simp [Bool.and_assoc]

theorem drain_eq (evs : List XEvent) (s : EngineImpl) :
    drain evs s =
      { s with
        running := s.running && !evs.any (closes s.wndClose),
        trace := s.trace ++ drainCalls s.dpy s.wndClose evs } := by
  unfold drain drainCalls
  simp only [foldl_pump_eq]
  simp [EngineImpl.emit]

theorem callsSince_drain (evs : List XEvent) (s : EngineImpl) :
    callsSince s (drain evs s) = drainCalls s.dpy s.wndClose evs := by
  apply callsSince_append
  rw [drain_eq]

theorem postedEvents_append (xs ys : List Call) :
    postedEvents (xs ++ ys) = postedEvents xs ++ postedEvents ys := by
  unfold postedEvents
  rw [List.filterMap_append]

theorem postedEvents_pumpCalls (dpy wndClose : Nat) (xevt : XEvent) :
    postedEvents (pumpCalls dpy wndClose xevt) = (forwarded xevt).toList := by
  unfold pumpCalls handleCalls closes forwarded postedEvents
  by_cases h3 : xevt.type = ClientMessage
  · by_cases h4 : xevt.data_l0 = wrapInt32 (wndClose : Int) <;>
      simp [h3, h4, ClientMessage, KeyPress, KeyRelease]
  by_cases h5 : xevt.type = KeyPress
  · simp [h5, ClientMessage, KeyPress]
  by_cases h6 : xevt.type = KeyRelease
  · simp [h6, ClientMessage, KeyPress, KeyRelease]
  simp [h3, h5, h6]

theorem postedEvents_drainCalls (dpy wndClose : Nat) (evs : List XEvent) :
    postedEvents (drainCalls dpy wndClose evs) = evs.filterMap forwarded := by
  unfold drainCalls
  rw [postedEvents_append]
  induction evs with
  | nil => simp [postedEvents]
  | cons e rest ih =>
    rw [List.flatMap_cons, postedEvents_append, List.append_assoc, ih,
      postedEvents_pumpCalls, List.filterMap_cons]
    cases forwarded e <;> simp

/-- C4. One event drain of `Run` posts to `World`, in arrival order, exactly
the key-press and key-release events among the pending events, each as a
keyboard `InputEvent` with `key = TranslateKey(keysym)` and `state` true for
a press and false for a release; events of any other type post nothing. In
particular press(a), release(a), press(w) is forwarded as (KEY_A, pressed),
(KEY_A, released), (KEY_W, pressed). -/
theorem drain_posts_key_events_in_order :
    (∀ (evs : List XEvent) (s : EngineImpl),
      postedEvents (callsSince s (drain evs s)) = evs.filterMap forwarded) ∧
    (∀ xevt : XEvent,
      forwarded xevt =
        if xevt.type = KeyPress then
          some { type := EventType.EVT_KEYBOARD, state := true, key := TranslateKey xevt.keysym }
        else if xevt.type = KeyRelease then
          some { type := EventType.EVT_KEYBOARD, state := false, key := TranslateKey xevt.keysym }
        else none) ∧
    (∀ s : EngineImpl,
      postedEvents (callsSince s (drain
        [{ type := KeyPress, data_l0 := 0, keysym := XK_a },
         { type := KeyRelease, data_l0 := 0, keysym := XK_a },
         { type := KeyPress, data_l0 := 0, keysym := XK_w }] s)) =
      [{ type := EventType.EVT_KEYBOARD, state := true, key := KeyButton.KEY_A },
       { type := EventType.EVT_KEYBOARD, state := false, key := KeyButton.KEY_A },
       { type := EventType.EVT_KEYBOARD, state := true, key := KeyButton.KEY_W }]) := by
  have h : ∀ (evs : List XEvent) (s : EngineImpl),
      postedEvents (callsSince s (drain evs s)) = evs.filterMap forwarded := by
    intro evs s
    rw [callsSince_drain, postedEvents_drainCalls]
  refine ⟨h, ?_, ?_⟩
  · intro xevt
    rfl
  · intro s
    rw [h]
    decide

/-! ### The frame loop -/

theorem RunLoop_stopped (env : X11Env) (ticks : List (List XEvent)) (s : EngineImpl)
    (h : s.running = false) : RunLoop env ticks s = some s := by
  cases ticks <;> simp [RunLoop, h]

theorem RunLoop_append_running (env : X11Env) (pre rest : List (List XEvent)) (s : EngineImpl)
    (h : ∀ k, k ≤ pre.length → ((pre.take k).foldl (tick env) s).running = true) :
    RunLoop env (pre ++ rest) s = RunLoop env rest (pre.foldl (tick env) s) := by
  induction pre generalizing s with
  | nil => rfl
  | cons a pre ih =>
    have h0 : s.running = true := h 0 (Nat.zero_le _)
    rw [List.cons_append, RunLoop, if_pos h0, List.foldl_cons]
    apply ih
    intro k hk
    exact h (k + 1) (by simpa using hk)

theorem tick_of_quit (env : X11Env) (s : EngineImpl) (evs : List XEvent)
    (h : (drain evs s).running = false) : tick env s evs = drain evs s := by
  unfold tick present IsRunning
  simp [h]

theorem mem_drainCalls (dpy wndClose : Nat) (evs : List XEvent) (c : Call)
    (hc : c ∈ drainCalls dpy wndClose evs) :
    c = Call.XPending dpy ∨ c = Call.XNextEvent dpy ∨ c = Call.engineQuit ∨
      c = Call.XLookupKeysym ∨ ∃ e, c = Call.worldPostEvent e := by
  unfold drainCalls at hc
  rw [List.mem_append, List.mem_flatMap] at hc
  rcases hc with ⟨e, -, hc⟩ | hc
  · unfold pumpCalls handleCalls at hc
    split at hc
    · simp at hc
      tauto
    · split at hc
      · simp at hc
        rcases hc with h | h | h | h
        · tauto
        · tauto
        · tauto
        · exact Or.inr (Or.inr (Or.inr (Or.inr ⟨_, h⟩)))
      · split at hc
        · simp at hc
          rcases hc with h | h | h | h
          · tauto
          · tauto
          · tauto
          · exact Or.inr (Or.inr (Or.inr (Or.inr ⟨_, h⟩)))
        · simp at hc
          tauto
  · simp at hc
    tauto

theorem drainCalls_no_frame (dpy wndClose : Nat) (evs : List XEvent) :
    ∀ c ∈ drainCalls dpy wndClose evs, c.isFrameOrSwap = false := by
  intro c hc
  rcases mem_drainCalls dpy wndClose evs c hc with h | h | h | h | ⟨e, h⟩ <;> subst h <;> rfl

theorem drainCalls_no_destroy (dpy wndClose : Nat) (evs : List XEvent) :
    ∀ c ∈ drainCalls dpy wndClose evs, c.isDestroying = false := by
  intro c hc
  rcases mem_drainCalls dpy wndClose evs c hc with h | h | h | h | ⟨e, h⟩ <;> subst h <;> rfl

theorem drainCalls_no_getWindowAttributes (dpy wndClose : Nat) (evs : List XEvent) :
    (drainCalls dpy wndClose evs).countP Call.isGetWindowAttributes = 0 := by
  rw [List.countP_eq_zero]
  intro c hc
  rcases mem_drainCalls dpy wndClose evs c hc with h | h | h | h | ⟨e, h⟩ <;> subst h <;> simp [Call.isGetWindowAttributes]

theorem count_quit_pumpCalls (dpy wndClose : Nat) (xevt : XEvent) :
    (pumpCalls dpy wndClose xevt).count Call.engineQuit =
      if closes wndClose xevt = true then 1 else 0 := by
  unfold pumpCalls handleCalls
  by_cases h : closes wndClose xevt = true
  · simp [h]
  · rw [Bool.not_eq_true] at h
    simp only [h, Bool.false_eq_true, if_false]
    by_cases h5 : xevt.type = KeyPress
    · simp [h5]
    · by_cases h6 : xevt.type = KeyRelease
      · simp [h6, KeyRelease, KeyPress]
      · simp [h5, h6]

theorem count_quit_drainCalls (dpy wndClose : Nat) (evs : List XEvent) :
    (drainCalls dpy wndClose evs).count Call.engineQuit = evs.countP (closes wndClose) := by
  unfold drainCalls
  rw [List.count_append]
  induction evs with
  | nil => simp
  | cons e rest ih =>
    rw [List.flatMap_cons, List.count_append, List.countP_cons, count_quit_pumpCalls]
    simp only [List.count_cons_of_ne, List.count_nil, ne_eq, reduceCtorEq, not_false_eq_true,
      Nat.add_zero] at ih ⊢
    rw [ih]
    omega

theorem closes_eq_isCloseMessage (wndClose : Nat) (h : wndClose < 2147483648) :
    closes wndClose = isCloseMessage wndClose := by
  funext xevt
  unfold closes isCloseMessage
  rw [wrapInt32_of_InInt32]
  unfold InInt32
  omega

theorem drain_stops_of_quit_during (top : EngineImpl) (evs : List XEvent)
    (htop : top.running = true)
    (hquit : ∃ k, k ≤ evs.length ∧ ((evs.take k).foldl pump top).running = false) :
    (drain evs top).running = false := by
  obtain ⟨k, -, hk⟩ := hquit
  rw [foldl_pump_eq] at hk
  rw [drain_eq]
  simp only [htop, Bool.true_and, Bool.not_eq_false_eq_eq_true, List.any_eq_true] at hk ⊢
  obtain ⟨e, he, hc⟩ := hk
  exact ⟨e, List.mem_of_mem_take he, hc⟩

theorem RunLoop_quit_tick (env : X11Env) (top : EngineImpl) (evs : List XEvent)
    (rest : List (List XEvent)) (htop : top.running = true)
    (hstop : (drain evs top).running = false) :
    RunLoop env (evs :: rest) top = some (drain evs top) := by
  rw [RunLoop, if_pos htop, tick_of_quit env top evs hstop]
  exact RunLoop_stopped env rest _ hstop

/-- C3. In `Run`, if during the event drain of some pass the running flag
has become false (after some number of the pending events), then from the
top of that pass to the return of `Run` no `renderer->Frame()` and no
`glXSwapBuffers` call is issued: the pass ends after its drain, the loop
exits, `threadMngr->Stop()` is called and `Run` returns, whatever events
would have been pending later. -/
theorem Run_no_frame_after_quit (env : X11Env) (s : EngineImpl)
    (pre : List (List XEvent)) (evs : List XEvent) (rest : List (List XEvent))
    (hpre : ∀ k, k ≤ pre.length →
      ((pre.take k).foldl (tick env) (runStart s)).running = true)
    (hquit : ∃ k, k ≤ evs.length ∧
      ((evs.take k).foldl pump (pre.foldl (tick env) (runStart s))).running = false) :
    tick env (pre.foldl (tick env) (runStart s)) evs =
      drain evs (pre.foldl (tick env) (runStart s)) ∧
    Run env (pre ++ evs :: rest) s =
      some ((drain evs (pre.foldl (tick env) (runStart s))).emit Call.threadMngrStop) ∧
    (∀ c ∈ callsSince (pre.foldl (tick env) (runStart s))
        ((drain evs (pre.foldl (tick env) (runStart s))).emit Call.threadMngrStop),
      c.isFrameOrSwap = false) := by
  have htop : (pre.foldl (tick env) (runStart s)).running = true := by
    have h := hpre pre.length (Nat.le_refl _)
    rwa [List.take_length] at h
  have hstop := drain_stops_of_quit_during _ evs htop hquit
  refine ⟨tick_of_quit env _ evs hstop, ?_, ?_⟩
  · have hrun : Run env (pre ++ evs :: rest) s =
        (RunLoop env (pre ++ evs :: rest) (runStart s)).map
          (fun t => t.emit Call.threadMngrStop) := rfl
    rw [hrun, RunLoop_append_running env pre (evs :: rest) (runStart s) hpre,
      RunLoop_quit_tick env _ evs rest htop hstop]
    rfl
  · intro c hc
    have ht : ((drain evs (pre.foldl (tick env) (runStart s))).emit Call.threadMngrStop).trace =
        (pre.foldl (tick env) (runStart s)).trace ++
          (drainCalls (pre.foldl (tick env) (runStart s)).dpy
            (pre.foldl (tick env) (runStart s)).wndClose evs ++ [Call.threadMngrStop]) := by
      rw [emit_trace, drain_eq, List.append_assoc]
    rw [callsSince_append _ _ _ ht, List.mem_append] at hc
    rcases hc with hc | hc
    · exact drainCalls_no_frame _ _ _ c hc
    · simp at hc
      subst hc
      rfl

/-- Witness for C3: after one pass without events, a pass finds a key press,
the close message and another key press; `Run` returns without a frame. -/
theorem Run_no_frame_after_quit_witness :
    (∀ k, k ≤ [([] : List XEvent)].length →
      (([([] : List XEvent)].take k).foldl (tick sampleEnv)
        (runStart (liveEngine 0 800 600))).running = true) ∧
    (∃ k, k ≤ sampleQuitEvents.length ∧
      ((sampleQuitEvents.take k).foldl pump
        ([([] : List XEvent)].foldl (tick sampleEnv)
          (runStart (liveEngine 0 800 600)))).running = false) ∧
    Run sampleEnv ([[]] ++ sampleQuitEvents :: [[]]) (liveEngine 0 800 600) =
      some ((drain sampleQuitEvents ([([] : List XEvent)].foldl (tick sampleEnv)
        (runStart (liveEngine 0 800 600)))).emit Call.threadMngrStop) :=
  have hpre : ∀ k, k ≤ [([] : List XEvent)].length →
      (([([] : List XEvent)].take k).foldl (tick sampleEnv)
        (runStart (liveEngine 0 800 600))).running = true := by
    intro k hk
    have hk1 : k ≤ 1 := hk
    interval_cases k <;> rfl
  have hquit : ∃ k, k ≤ sampleQuitEvents.length ∧
      ((sampleQuitEvents.take k).foldl pump
        ([([] : List XEvent)].foldl (tick sampleEnv)
          (runStart (liveEngine 0 800 600)))).running = false :=
    ⟨2, by decide, by decide⟩
  ⟨hpre, hquit,
    (Run_no_frame_after_quit sampleEnv (liveEngine 0 800 600) [[]] sampleQuitEvents [[]]
      hpre hquit).2.1⟩

/-- C7. For a close token in the range of X atoms (below 2^31; every atom is
below 2^29) and an event drain of a running loop whose queue holds exactly
one `ClientMessage` with that token as first data word, `Quit` is invoked
exactly once, the running flag is false after the drain, the drain issues no
resource-destroying call, the pass renders no frame, and the loop exits
without another pass whatever events would have been pending later. -/
theorem drain_close_message_quits_once (env : X11Env) (s : EngineImpl) (evs : List XEvent)
    (rest : List (List XEvent)) (hrun : s.running = true)
    (hatom : s.wndClose < 2147483648)
    (hone : evs.countP (isCloseMessage s.wndClose) = 1) :
    (callsSince s (drain evs s)).count Call.engineQuit = 1 ∧
    (drain evs s).running = false ∧
    (∀ c ∈ callsSince s (drain evs s), c.isDestroying = false) ∧
    tick env s evs = drain evs s ∧
    RunLoop env (evs :: rest) s = some (drain evs s) := by
  rw [← closes_eq_isCloseMessage _ hatom] at hone
  have hstop : (drain evs s).running = false := by
    rw [drain_eq]
    have hpos : 0 < evs.countP (closes s.wndClose) := by omega
    rw [List.countP_pos_iff] at hpos
    simp only [hrun, Bool.true_and, Bool.not_eq_false_eq_eq_true, List.any_eq_true]
    exact hpos
  refine ⟨?_, hstop, ?_, tick_of_quit env s evs hstop, RunLoop_quit_tick env s evs rest hrun hstop⟩
  · rw [callsSince_drain, count_quit_drainCalls, hone]
  · rw [callsSince_drain]
    exact drainCalls_no_destroy _ _ _

/-- Witness for C7: the sample queue holds one close message for the token 6. -/
theorem drain_close_message_quits_once_witness :
    (liveEngine 0 800 600).running = true ∧
    (liveEngine 0 800 600).wndClose < 2147483648 ∧
    sampleQuitEvents.countP (isCloseMessage (liveEngine 0 800 600).wndClose) = 1 ∧
    (callsSince (liveEngine 0 800 600)
      (drain sampleQuitEvents (liveEngine 0 800 600))).count Call.engineQuit = 1 ∧
    (drain sampleQuitEvents (liveEngine 0 800 600)).running = false ∧
    RunLoop sampleEnv (sampleQuitEvents :: [[]]) (liveEngine 0 800 600) =
      some (drain sampleQuitEvents (liveEngine 0 800 600)) :=
  have h := drain_close_message_quits_once sampleEnv (liveEngine 0 800 600)
    sampleQuitEvents [[]] (by decide) (by decide) (by decide)
  ⟨by decide, by decide, by decide, h.1, h.2.1, h.2.2.2.2⟩

/-! ### Failure of `InitWindow` at context creation -/

theorem waitForMap_of_mem (evs : List Int) (s : EngineImpl) (h : MapNotify ∈ evs) :
    waitForMap evs s =
      some { s with trace := s.trace ++
        List.replicate (evs.indexOf MapNotify + 1) (Call.XNextEvent s.dpy) } := by
  induction evs generalizing s with
  | nil => simp at h
  | cons t ts ih =>
    unfold waitForMap
    by_cases ht : t = MapNotify
    · simp [ht, EngineImpl.emit]
    · have hmem : MapNotify ∈ ts := by
        rcases List.mem_cons.mp h with h1 | h1
        · exact absurd h1.symm ht
        · exact h1
      rw [if_neg ht, ih _ hmem]
      have hb : (t == MapNotify) = false := by simpa using ht
      simp [EngineImpl.emit, List.indexOf_cons, hb, List.replicate_succ]

theorem InitWindow_threw_at_context (env : X11Env) (s : EngineImpl)
    (hdpy : env.display ≠ 0) (hroot : env.root ≠ 0)
    (hglx : glxVersionInvalid env.glxQueryOk env.glxMajor env.glxMinor = false)
    (hvis : env.visual ≠ 0) (hcmap : env.newColormap ≠ 0) (hwnd : env.newWindow ≠ 0)
    (hmap : MapNotify ∈ env.mapEvents) (hmodes : env.modeLinesOk = true)
    (hctx : env.newContext = 0) :
    InitWindow env s = some (Outcome.threw
      { s with dpy := env.display, wnd := env.newWindow, wndClose := env.closeAtom,
               context := 0, colormap := env.newColormap,
               modes := env.modeLine0 :: env.modeLinesRest, modeCount := env.modeCount,
               trace := s.trace ++
                 contextFailureCalls env s (env.mapEvents.indexOf MapNotify + 1) }
      InitError.cannotCreateContext) := by
  unfold InitWindow InitWindow_window
  simp only [hdpy, hroot, or_self, if_false, hglx, Bool.false_eq_true, hvis, hcmap, hwnd]
  rw [waitForMap_of_mem _ _ hmap]
  unfold InitWindow_context
  simp [hmodes, hctx, EngineImpl.emit, contextFailureCalls]

theorem Destroy_eq (env : X11Env) (s : EngineImpl) :
    Destroy env s = (DestroyWindow
      ((((s.emit Call.threadMngrDestroy).emit Call.rendererDestroy).emit
        Call.cacheDestroy).emit Call.worldDestroy)).map
      (fun t => Outcome.returned (DestroyLua t)) := by
  cases h : DestroyWindow ((((s.emit Call.threadMngrDestroy).emit
      Call.rendererDestroy).emit Call.cacheDestroy).emit Call.worldDestroy) <;>
    simp [Destroy, DestroyBody, execAll, exec, h, DestroyLua]

theorem main_of_InitWindow_threw (env : X11Env) (ticks : List (List XEvent))
    (s t : EngineImpl) (e : InitError) (h : InitWindow env s = some (Outcome.threw t e)) :
    main env ticks s = (DestroyWindow
      ((((t.emit Call.threadMngrDestroy).emit Call.rendererDestroy).emit
        Call.cacheDestroy).emit Call.worldDestroy)).map (fun u => (u, EXIT_FAILURE)) := by
  have hi : Init env s = some (Outcome.threw t e) := by
    simp [Init, InitBody, execAll, exec, InitLua, h]
  unfold main
  rw [hi]
  simp only [Destroy_eq]
  cases DestroyWindow ((((t.emit Call.threadMngrDestroy).emit
      Call.rendererDestroy).emit Call.cacheDestroy).emit Call.worldDestroy) <;>
    simp [Outcome.state, DestroyLua]

theorem contextFailureCalls_destroying (env : X11Env) (s : EngineImpl) (n : Nat) (c : Call)
    (hc : c ∈ contextFailureCalls env s n) (hd : c.isDestroying = true) :
    c = Call.XFree env.visual := by
  unfold contextFailureCalls at hc
  simp only [List.mem_append, List.mem_cons, List.mem_replicate, List.not_mem_nil,
    or_false] at hc
  rcases hc with (((h | h | h | h | h | h | h | h | h | h) | ⟨-, h⟩) | (h | h | h)) <;>
    subst h <;> first | rfl | simp [Call.isDestroying] at hd

theorem DestroyWindow_issues (t : EngineImpl) (h : modesReadable t) :
    ∃ u : EngineImpl, DestroyWindow t = some u ∧ u.wnd = 0 ∧ u.colormap = 0 ∧
      (t.wnd ≠ 0 → Call.XDestroyWindow t.dpy t.wnd ∈ callsSince t u) ∧
      (t.colormap ≠ 0 → Call.XFreeColormap t.dpy t.colormap ∈ callsSince t u) := by
  refine ⟨_, DestroyWindow_eq t h, rfl, rfl, ?_, ?_⟩
  · intro hw
    rw [callsSince_append _ _ _ rfl]
    simp [destroyCalls, hw]
  · intro hm
    rw [callsSince_append _ _ _ rfl]
    simp [destroyCalls, hm]

theorem Destroy_issues (t : EngineImpl) (h : modesReadable t) :
    ∃ u : EngineImpl, DestroyWindow
        ((((t.emit Call.threadMngrDestroy).emit Call.rendererDestroy).emit
          Call.cacheDestroy).emit Call.worldDestroy) = some u ∧
      u.wnd = 0 ∧ u.colormap = 0 ∧
      (t.wnd ≠ 0 → Call.XDestroyWindow t.dpy t.wnd ∈ callsSince t u) ∧
      (t.colormap ≠ 0 → Call.XFreeColormap t.dpy t.colormap ∈ callsSince t u) := by
  have ht : ∀ cs : List Call,
      t.trace ++ [Call.threadMngrDestroy] ++ [Call.rendererDestroy] ++ [Call.cacheDestroy] ++
        [Call.worldDestroy] ++ cs =
      t.trace ++ ([Call.threadMngrDestroy, Call.rendererDestroy, Call.cacheDestroy,
        Call.worldDestroy] ++ cs) := by
    intro cs
    simp
  refine ⟨_, DestroyWindow_eq _ h, rfl, rfl, ?_, ?_⟩
  · intro hw
    rw [callsSince_append _ _ _ (ht _)]
    simp [destroyCalls, hw, EngineImpl.emit]
  · intro hm
    rw [callsSince_append _ _ _ (ht _)]
    simp [destroyCalls, hm, EngineImpl.emit]

/-- C5, as stated, fails: when `glXCreateContext` answers `NULL` on the
sample display, `InitWindow` signals the error with `wnd = 5` and
`colormap = 4` still set, having issued neither `XDestroyWindow` nor
`XFreeColormap`. -/
theorem InitWindow_context_failure_keeps_window_and_colormap :
    InitWindow noContextEnv freshEngine = some (Outcome.threw
      { dpy := 1, wnd := 5, wndClose := 6, context := 0, colormap := 4,
        modes := [7], modeCount := 1, running := false,
        wndType := 0, wndWidth := 800, wndHeight := 600, wndTitle := "T",
        wndReload := false, vpWidth := 0, vpHeight := 0, vpReload := false,
        trace := [Call.XOpenDisplay, Call.glXQueryVersion 1, Call.glXChooseVisual 1,
          Call.XCreateColormap 1 2, Call.XCreateWindow 1 2 800 600,
          Call.XStoreName 1 5 "T", Call.XInternAtom 1 "WM_DELETE_WINDOW",
          Call.XSetWMProtocols 1 5 6, Call.XMapWindow 1 5, Call.XSync 1,
          Call.XNextEvent 1, Call.XNextEvent 1,
          Call.XF86VidModeGetAllModeLines 1, Call.glXCreateContext 1 3, Call.XFree 3] }
      InitError.cannotCreateContext) := by
  decide

/-- C5, amended. When `InitWindow` fails at OpenGL context creation, it
signals the error with the window and the color map created earlier in the
call still held: `wnd` and `colormap` keep their handles and the only
releasing call issued is `XFree` on the visual. They are released afterwards
by `DestroyWindow`, which `main` reaches through `Destroy` in its handler:
`XDestroyWindow` and `XFreeColormap` are issued then, both fields are zeroed
and the process exits with `EXIT_FAILURE`. -/
theorem InitWindow_context_failure_released_by_Destroy (env : X11Env) (s : EngineImpl)
    (ticks : List (List XEvent))
    (hdpy : env.display ≠ 0) (hroot : env.root ≠ 0)
    (hglx : glxVersionInvalid env.glxQueryOk env.glxMajor env.glxMinor = false)
    (hvis : env.visual ≠ 0) (hcmap : env.newColormap ≠ 0) (hwnd : env.newWindow ≠ 0)
    (hmap : MapNotify ∈ env.mapEvents) (hmodes : env.modeLinesOk = true)
    (hctx : env.newContext = 0) :
    ∃ t : EngineImpl,
      InitWindow env s = some (Outcome.threw t InitError.cannotCreateContext) ∧
      t.wnd = env.newWindow ∧ t.colormap = env.newColormap ∧
      (∀ c ∈ callsSince s t, c.isDestroying = true → c = Call.XFree env.visual) ∧
      (∃ u : EngineImpl, DestroyWindow t = some u ∧ u.wnd = 0 ∧ u.colormap = 0 ∧
        Call.XDestroyWindow env.display env.newWindow ∈ callsSince t u ∧
        Call.XFreeColormap env.display env.newColormap ∈ callsSince t u) ∧
      ∃ final : EngineImpl,
        main env ticks s = some (final, EXIT_FAILURE) ∧
        final.wnd = 0 ∧ final.colormap = 0 ∧
        Call.XDestroyWindow env.display env.newWindow ∈ callsSince t final ∧
        Call.XFreeColormap env.display env.newColormap ∈ callsSince t final := by
  have h := InitWindow_threw_at_context env s hdpy hroot hglx hvis hcmap hwnd hmap hmodes hctx
  have hread : modesReadable
      { s with dpy := env.display, wnd := env.newWindow, wndClose := env.closeAtom,
               context := 0, colormap := env.newColormap,
               modes := env.modeLine0 :: env.modeLinesRest, modeCount := env.modeCount,
               trace := s.trace ++
                 contextFailureCalls env s (env.mapEvents.indexOf MapNotify + 1) } := by
    intro _ _
    exact List.cons_ne_nil _ _
  obtain ⟨u, hu, huw, huc, hu1, hu2⟩ := DestroyWindow_issues _ hread
  obtain ⟨final, hf, hfw, hfc, hf1, hf2⟩ := Destroy_issues _ hread
  refine ⟨_, h, rfl, rfl, ?_, ⟨u, hu, huw, huc, hu1 hwnd, hu2 hcmap⟩,
    final, ?_, hfw, hfc, hf1 hwnd, hf2 hcmap⟩
  · intro c hc
    rw [callsSince_append _ _ _ rfl] at hc
    exact contextFailureCalls_destroying env s _ c hc
  · rw [main_of_InitWindow_threw env ticks s _ _ h, hf]
    rfl

/-- Witness for C5 (amended): on the sample display with `glXCreateContext`
answering `NULL`, `main` ends with `EXIT_FAILURE` and both handles zeroed. -/
theorem InitWindow_context_failure_released_by_Destroy_witness :
    (noContextEnv.display ≠ 0 ∧ noContextEnv.root ≠ 0 ∧
      glxVersionInvalid noContextEnv.glxQueryOk noContextEnv.glxMajor
        noContextEnv.glxMinor = false ∧
      noContextEnv.visual ≠ 0 ∧ noContextEnv.newColormap ≠ 0 ∧ noContextEnv.newWindow ≠ 0 ∧
      MapNotify ∈ noContextEnv.mapEvents ∧ noContextEnv.modeLinesOk = true ∧
      noContextEnv.newContext = 0) ∧
    ∃ final : EngineImpl,
      main noContextEnv [] freshEngine = some (final, EXIT_FAILURE) ∧
      final.wnd = 0 ∧ final.colormap = 0 := by
  obtain ⟨t, -, -, -, -, -, final, hmain, hw, hc, -, -⟩ :=
    InitWindow_context_failure_released_by_Destroy noContextEnv freshEngine []
      (by decide) (by decide) (by decide) (by decide) (by decide) (by decide)
      (by decide) (by decide) (by decide)
  exact ⟨⟨by decide, by decide, by decide, by decide, by decide, by decide, by decide,
    by decide, by decide⟩, final, hmain, hw, hc⟩

/-! ### The reload branch -/

theorem present_reload (env : X11Env) (s : EngineImpl) (hrun : s.running = true)
    (hreload : s.wndReload = true) :
    present env s =
      (({ UpdateWindow env s with wndReload := false }).emit Call.rendererFrame).emit
        (Call.glXSwapBuffers s.dpy s.wnd) := by
  unfold present IsRunning
  simp only [hrun, hreload, if_true]
  by_cases h0 : s.wndType = 0
  · rw [UpdateWindow_windowed env s h0]
  · rw [UpdateWindow_other env s h0]

theorem wndType_of_inPool (s : EngineImpl) (h : wndTypeInPool s) : s.wndType = 0 := by
  unfold wndTypeInPool wndTypePool at h
  simp only [List.length_singleton, Nat.cast_one] at h
  omega

/-- C6. For every pass of `Run` in which `wndReload` is set and the engine
is still running after the event drain, the window type being an option of
its pool (`windowed`, index 0), `UpdateWindow` is called exactly once in
that pass, `wndReload` is false afterwards, and `Renderer::vpWidth` and
`Renderer::vpHeight` equal the configured `wndWidth` and `wndHeight` with
`Renderer::vpReload` set to true. -/
theorem tick_reload_updates_window_once (env : X11Env) (s : EngineImpl) (evs : List XEvent)
    (hpool : wndTypeInPool s)
    (hreload : s.wndReload = true) (hrun : (drain evs s).running = true) :
    tick env s evs =
      (({ UpdateWindow env (drain evs s) with wndReload := false }).emit
        Call.rendererFrame).emit (Call.glXSwapBuffers s.dpy s.wnd) ∧
    (callsSince s (tick env s evs)).countP Call.isGetWindowAttributes = 1 ∧
    (tick env s evs).wndReload = false ∧
    (tick env s evs).vpWidth = s.wndWidth ∧
    (tick env s evs).vpHeight = s.wndHeight ∧
    (tick env s evs).vpReload = true := by
  have h0 : s.wndType = 0 := wndType_of_inPool s hpool
  have hd := drain_eq evs s
  have hr : (drain evs s).wndReload = true := by rw [hd]; exact hreload
  have h0d : (drain evs s).wndType = 0 := by rw [hd]; exact h0
  have ht : tick env s evs =
      (({ UpdateWindow env (drain evs s) with wndReload := false }).emit
        Call.rendererFrame).emit (Call.glXSwapBuffers s.dpy s.wnd) := by
    unfold tick
    rw [present_reload env _ hrun hr, hd]
  have htr : (tick env s evs).trace = s.trace ++ (drainCalls s.dpy s.wndClose evs ++
      ([Call.XGetWindowAttributes s.dpy env.root,
        Call.XStoreName s.dpy s.wnd s.wndTitle,
        Call.XF86VidModeSwitchToMode s.dpy (s.modes.headD 0),
        Call.XF86VidModeSetViewPort s.dpy 0 0,
        Call.XMoveResizeWindow s.dpy s.wnd
          (centred env.rootAttr.x env.rootAttr.width s.wndWidth)
          (centred env.rootAttr.y env.rootAttr.height s.wndHeight)
          (toUInt32 s.wndWidth) (toUInt32 s.wndHeight),
        Call.XChangeWindowAttributes s.dpy s.wnd,
        Call.rendererFrame, Call.glXSwapBuffers s.dpy s.wnd])) := by
    rw [ht, UpdateWindow_windowed env _ h0d, hd]
    simp [EngineImpl.emit]
  refine ⟨ht, ?_, ?_, ?_, ?_, ?_⟩
  · rw [callsSince_append _ _ _ htr, List.countP_append,
      drainCalls_no_getWindowAttributes]
    simp [List.countP_cons, Call.isGetWindowAttributes]
  · rw [ht]
    rfl
  · rw [ht, UpdateWindow_windowed env _ h0d, hd]
    rfl
  · rw [ht, UpdateWindow_windowed env _ h0d, hd]
    rfl
  · rw [ht, UpdateWindow_windowed env _ h0d, hd]
    rfl

/-- Witness for C6: a windowed 800 x 600 engine with the reload flag set,
one key press pending. -/
theorem tick_reload_updates_window_once_witness :
    wndTypeInPool (liveEngine 0 800 600) ∧
    (liveEngine 0 800 600).wndReload = true ∧
    (drain [{ type := KeyPress, data_l0 := 0, keysym := XK_a }]
      (liveEngine 0 800 600)).running = true ∧
    (tick sampleEnv (liveEngine 0 800 600)
      [{ type := KeyPress, data_l0 := 0, keysym := XK_a }]).wndReload = false ∧
    (tick sampleEnv (liveEngine 0 800 600)
      [{ type := KeyPress, data_l0 := 0, keysym := XK_a }]).vpWidth = 800 ∧
    (tick sampleEnv (liveEngine 0 800 600)
      [{ type := KeyPress, data_l0 := 0, keysym := XK_a }]).vpHeight = 600 ∧
    (tick sampleEnv (liveEngine 0 800 600)
      [{ type := KeyPress, data_l0 := 0, keysym := XK_a }]).vpReload = true :=
  have h := tick_reload_updates_window_once sampleEnv (liveEngine 0 800 600)
    [{ type := KeyPress, data_l0 := 0, keysym := XK_a }] (by decide) (by decide) (by decide)
  ⟨by decide, by decide, by decide, h.2.2.1, h.2.2.2.1, h.2.2.2.2.1, h.2.2.2.2.2⟩

end Rpg
